import Mathlib

/-!
Verification development for the MetalCalculator sheathing estimator.

The estimation engine is `calculate_sheathing` in `src/utils.py`.  All float
arithmetic of the source is modelled over `ℚ` (every quantity in the program is
obtained from the inputs by field operations and rounding), except the two roof
slope lengths which use `Real.sqrt` and are modelled over `ℝ`.  Python's
built-in `round` (nearest integer, ties to even) is modelled exactly by
`pyRound`.  The only failure mode of the source is a `ZeroDivisionError` when
`sheet_width == 0`; the engine is therefore embedded as an `Except`-valued
function that throws exactly there.
-/

namespace MetalCalc

/-- Python's built-in `round`: nearest integer, ties go to the even integer. -/
def pyRound (x : ℚ) : ℤ :=
  if x - ⌊x⌋ < 1/2 then ⌊x⌋
  else if 1/2 < x - ⌊x⌋ then ⌊x⌋ + 1
  else if ⌊x⌋ % 2 = 0 then ⌊x⌋ else ⌊x⌋ + 1

/-- The "Sheet Length" component of one section of the result dict:
either a single numeric length (walls, roof), the ordered list of staggered
gable lengths, or the `"{lo} to {hi}"` range string printed for the shed side
wall (modelled by its two numeric endpoints). -/
inductive SheetLength where
  | single (x : ℝ)
  | staggered (xs : List ℚ)
  | range (lo hi : ℚ)

/-- One value of the result dict: `{"Sheets": …, "Sheet Length(s)": …}`. -/
structure SectionResult where
  sheets : ℤ
  sheetLength : SheetLength

/-- `sheet_width_ft = sheet_width / 12` (src/utils.py line 29). -/
def sheet_width_ft (sheet_width : ℚ) : ℚ := sheet_width / 12

/-- `overhang_ft = overhang / 12` (line 30). -/
def overhang_ft (overhang : ℚ) : ℚ := overhang / 12

/-- `gable_width = width + 2 * overhang_ft` (line 34). -/
def gable_width (width overhang : ℚ) : ℚ := width + 2 * overhang_ft overhang

/-- `half_gable_width = gable_width / 2` (line 35). -/
def half_gable_width (width overhang : ℚ) : ℚ := gable_width width overhang / 2

/-- `peak_height = half_gable_width * (pitch / 12)` (line 38). -/
def peak_height (width overhang pitch : ℚ) : ℚ :=
  half_gable_width width overhang * (pitch / 12)

/-- `sheets_per_side = math.ceil(width / (2 * sheet_width_ft))` (line 41). -/
def sheets_per_side (width sheet_width : ℚ) : ℤ :=
  ⌈width / (2 * sheet_width_ft sheet_width)⌉

/-- `rise_per_sheet_inches = math.ceil((sheet_width * pitch) / 12)` (line 44). -/
def rise_per_sheet_inches (sheet_width pitch : ℚ) : ℤ :=
  ⌈sheet_width * pitch / 12⌉

/-- `rise_per_sheet_feet = rise_per_sheet_inches / 12` (line 45). -/
def rise_per_sheet_feet (sheet_width pitch : ℚ) : ℚ :=
  (rise_per_sheet_inches sheet_width pitch : ℚ) / 12

/-- `start_length = height + rise_per_sheet_feet` (line 49). -/
def start_length (height sheet_width pitch : ℚ) : ℚ :=
  height + rise_per_sheet_feet sheet_width pitch

/-- Body of both gable loops: `round((start_length + i*rise)*12)/12`
(lines 53–55 and 60–62). -/
def gable_sheet_length_at (height sheet_width pitch : ℚ) (i : ℕ) : ℚ :=
  (pyRound ((start_length height sheet_width pitch +
      (i : ℚ) * rise_per_sheet_feet sheet_width pitch) * 12) : ℚ) / 12

/-- The ascending loop `for i in range(sheets_per_side)` (lines 52–56). -/
def asc_lengths (width height pitch sheet_width : ℚ) : List ℚ :=
  (List.range (sheets_per_side width sheet_width).toNat).map
    (gable_sheet_length_at height sheet_width pitch)

/-- The descending loop `for i in range(sheets_per_side - 1, -1, -1)`
(lines 59–63); this index list is exactly `range sheets_per_side` reversed. -/
def desc_lengths (width height pitch sheet_width : ℚ) : List ℚ :=
  ((List.range (sheets_per_side width sheet_width).toNat).reverse).map
    (gable_sheet_length_at height sheet_width pitch)

/-- `gable_sheet_lengths`: ascending loop output followed by descending loop
output (lines 48–63). -/
def gable_sheet_lengths (width height pitch sheet_width : ℚ) : List ℚ :=
  asc_lengths width height pitch sheet_width ++
    desc_lengths width height pitch sheet_width

/-- `eave_wall_sheets = math.ceil(length / sheet_width_ft) * 2` (line 66). -/
def eave_wall_sheets (length sheet_width : ℚ) : ℤ :=
  ⌈length / sheet_width_ft sheet_width⌉ * 2

/-- `roof_run = half_gable_width` (line 70). -/
def roof_run (width overhang : ℚ) : ℚ := half_gable_width width overhang

/-- `roof_slope_length = math.sqrt(roof_run**2 + peak_height**2)` (line 71). -/
noncomputable def roof_slope_length (width overhang pitch : ℚ) : ℝ :=
  Real.sqrt ((roof_run width overhang : ℝ) ^ 2 +
    (peak_height width overhang pitch : ℝ) ^ 2)

/-- `roof_length = length + 2 * overhang_ft` (line 72). -/
def roof_length (length overhang : ℚ) : ℚ := length + 2 * overhang_ft overhang

/-- `roof_sheets_per_side = math.ceil(roof_length / sheet_width_ft)` (line 73). -/
def roof_sheets_per_side (length overhang sheet_width : ℚ) : ℤ :=
  ⌈roof_length length overhang / sheet_width_ft sheet_width⌉

/-- `roof_sheet_length = math.ceil(roof_slope_length * 2) / 2` (line 74). -/
noncomputable def roof_sheet_length (width overhang pitch : ℚ) : ℝ :=
  (⌈roof_slope_length width overhang pitch * 2⌉ : ℝ) / 2

/-- `total_roof_sheets = roof_sheets_per_side * 2` (line 75). -/
def total_roof_sheets (length overhang sheet_width : ℚ) : ℤ :=
  roof_sheets_per_side length overhang sheet_width * 2

/-- `shed_front_back_sheets = math.ceil(shed_width / sheet_width_ft) * 2` (line 86). -/
def shed_front_back_sheets (shed_width sheet_width : ℚ) : ℤ :=
  ⌈shed_width / sheet_width_ft sheet_width⌉ * 2

/-- `shed_side_sheets = math.ceil(shed_depth / sheet_width_ft)` (line 87). -/
def shed_side_sheets (shed_depth sheet_width : ℚ) : ℤ :=
  ⌈shed_depth / sheet_width_ft sheet_width⌉

/-- `shed_peak_height = shed_width * (shed_pitch / 12)` (line 90). -/
def shed_peak_height (shed_width shed_pitch : ℚ) : ℚ :=
  shed_width * (shed_pitch / 12)

/-- `shed_roof_slope_length = math.sqrt(shed_width**2 + shed_peak_height**2)` (line 91). -/
noncomputable def shed_roof_slope_length (shed_width shed_pitch : ℚ) : ℝ :=
  Real.sqrt ((shed_width : ℝ) ^ 2 + (shed_peak_height shed_width shed_pitch : ℝ) ^ 2)

/-- `shed_roof_sheets = math.ceil((shed_depth / sheet_width_ft)) * 1` (line 92). -/
def shed_roof_sheets (shed_depth sheet_width : ℚ) : ℤ :=
  ⌈shed_depth / sheet_width_ft sheet_width⌉ * 1

/-- `math.ceil(shed_roof_slope_length * 2) / 2` (line 105). -/
noncomputable def shed_roof_sheet_length (shed_width shed_pitch : ℚ) : ℝ :=
  (⌈shed_roof_slope_length shed_width shed_pitch * 2⌉ : ℝ) / 2

/-- The base result dict built at lines 77–81, in insertion order. -/
noncomputable def base_results (length width height pitch overhang sheet_width : ℚ) :
    List (String × SectionResult) :=
  [("Eave Walls",
      ⟨eave_wall_sheets length sheet_width, .single (height : ℝ)⟩),
   ("Gable Triangles",
      ⟨(gable_sheet_lengths width height pitch sheet_width).length * 2,
       .staggered (gable_sheet_lengths width height pitch sheet_width)⟩),
   ("Roof",
      ⟨total_roof_sheets length overhang sheet_width,
       .single (roof_sheet_length width overhang pitch)⟩)]

/-- The shed sections added by `results.update(...)` at lines 94–107,
in insertion order. -/
noncomputable def shed_results (sheet_width shed_width shed_depth shed_pitch shed_height : ℚ) :
    List (String × SectionResult) :=
  [("Shed Front/Back Walls",
      ⟨shed_front_back_sheets shed_width sheet_width, .single (shed_height : ℝ)⟩),
   ("Shed Side Wall",
      ⟨shed_side_sheets shed_depth sheet_width,
       .range shed_height (shed_height + shed_peak_height shed_width shed_pitch)⟩),
   ("Shed Roof",
      ⟨shed_roof_sheets shed_depth sheet_width,
       .single (shed_roof_sheet_length shed_width shed_pitch)⟩)]

/-- The engine `calculate_sheathing` of `src/utils.py` (lines 4–109).
Python raises `ZeroDivisionError` at line 41 when `sheet_width == 0`
(the first division by `sheet_width_ft`); for every other input the function
returns its result dict.  The shed sections are appended exactly when
`include_shed and all(x is not None for x in [shed_width, shed_depth,
shed_pitch, shed_height])` (line 84). -/
noncomputable def calculate_sheathing (length width height pitch overhang sheet_width : ℚ)
    (include_shed : Bool) (shed_width shed_depth shed_pitch shed_height : Option ℚ) :
    Except String (List (String × SectionResult)) :=
  if sheet_width = 0 then .error "ZeroDivisionError"
  else .ok
    (match include_shed, shed_width, shed_depth, shed_pitch, shed_height with
     | true, some w, some d, some p, some h =>
        base_results length width height pitch overhang sheet_width ++
          shed_results sheet_width w d p h
     | _, _, _, _, _ =>
        base_results length width height pitch overhang sheet_width)

/-- Modelled from the spec: the porch-capable engine variant.  `src/` contains
only its call site (`src/metalcalculator/main.py`, which calls
`calculate_sheathing(..., porch_params=porch_params)` and builds
`porch_params = {"length", "depth", "pitch"}` only when the porch is selected
and `porch_length > 0 and porch_depth > 0`); the implementation itself is
missing from `src/`.  Per spec §3 the attachment is a tagged variant
`Porch{length, depth, pitch}` whose sections follow the base sections in the
result order (§3 EstimationResult), a porch or shed with any zero/missing
dimension being treated as `None`.  The spec gives no porch-specific
formulas, so the single porch roof section follows §4.1's attachment
pattern (single-slope roof, Pythagorean slope length over the depth,
half-foot round-up, `ceil(length/sheetWidthFt)` panels). -/
noncomputable def porch_results (sheet_width porch_length porch_depth porch_pitch : ℚ) :
    List (String × SectionResult) :=
  [("Porch Roof",
      ⟨⌈porch_length / sheet_width_ft sheet_width⌉,
       .single ((⌈Real.sqrt ((porch_depth : ℝ) ^ 2 +
          ((porch_depth * (porch_pitch / 12) : ℚ) : ℝ) ^ 2) * 2⌉ : ℝ) / 2)⟩)]

/-- Modelled from the spec: `calculate_sheathing` accepting the Porch
attachment variant, as invoked by `src/metalcalculator/main.py` (lines
118–134).  See `porch_results` for what is modelled and why. -/
noncomputable def calculate_sheathing_porch (length width height pitch overhang sheet_width : ℚ)
    (porch_params : Option (ℚ × ℚ × ℚ)) :
    Except String (List (String × SectionResult)) :=
  if sheet_width = 0 then .error "ZeroDivisionError"
  else .ok
    (match porch_params with
     | some (pl, pd, pp) =>
        if 0 < pl ∧ 0 < pd then
          base_results length width height pitch overhang sheet_width ++
            porch_results sheet_width pl pd pp
        else base_results length width height pitch overhang sheet_width
     | none => base_results length width height pitch overhang sheet_width)

/-! ### Helper lemmas -/

/-- `pyRound` at an integer is that integer. -/
lemma pyRound_of_intCast {x : ℚ} {n : ℤ} (hx : x = (n : ℚ)) : pyRound x = n := by
  subst hx
  unfold pyRound
  norm_num

/-- `pyRound` at a half-integer rounds to the even neighbour. -/
lemma pyRound_of_add_half {x : ℚ} {n : ℤ} (hx : x = (n : ℚ) + 1/2) :
    pyRound x = if n % 2 = 0 then n else n + 1 := by
  subst hx
  have hfl : ⌊(n : ℚ) + 1/2⌋ = n := by
    rw [Int.floor_eq_iff]
    constructor
    · norm_num
    · norm_num
  unfold pyRound
  rw [hfl]
  norm_num

lemma floor_le_pyRound (x : ℚ) : ⌊x⌋ ≤ pyRound x := by
  unfold pyRound
  split_ifs <;> omega

lemma pyRound_le_floor_add_one (x : ℚ) : pyRound x ≤ ⌊x⌋ + 1 := by
  unfold pyRound
  split_ifs <;> omega

/-- `pyRound` is monotone. -/
lemma pyRound_mono {x y : ℚ} (h : x ≤ y) : pyRound x ≤ pyRound y := by
  rcases lt_or_eq_of_le (Int.floor_le_floor h) with hf | hf
  · calc pyRound x ≤ ⌊x⌋ + 1 := pyRound_le_floor_add_one x
      _ ≤ ⌊y⌋ := by omega
      _ ≤ pyRound y := floor_le_pyRound y
  · unfold pyRound
    rw [← hf]
    split_ifs <;> first | omega | linarith

/-- The descending loop produces exactly the reverse of the ascending loop. -/
lemma desc_lengths_eq_reverse (width height pitch sheet_width : ℚ) :
    desc_lengths width height pitch sheet_width =
      (asc_lengths width height pitch sheet_width).reverse := by
  unfold desc_lengths asc_lengths
  rw [List.map_reverse]

/-- The gable staggered list is the ascending run followed by its mirror. -/
lemma gable_sheet_lengths_eq_append (width height pitch sheet_width : ℚ) :
    gable_sheet_lengths width height pitch sheet_width =
      asc_lengths width height pitch sheet_width ++
        (asc_lengths width height pitch sheet_width).reverse := by
  unfold gable_sheet_lengths
  rw [desc_lengths_eq_reverse]

lemma asc_lengths_length (width height pitch sheet_width : ℚ) :
    (asc_lengths width height pitch sheet_width).length =
      (sheets_per_side width sheet_width).toNat := by
  simp [asc_lengths]

lemma gable_sheet_lengths_length (width height pitch sheet_width : ℚ) :
    (gable_sheet_lengths width height pitch sheet_width).length =
      2 * (sheets_per_side width sheet_width).toNat := by
  rw [gable_sheet_lengths_eq_append]
  simp [asc_lengths_length]
  ring

/-- A monotone map over `List.range` is a `≤`-chain. -/
lemma chain'_le_map_range {f : ℕ → ℚ} (hf : ∀ i, f i ≤ f (i + 1)) (n : ℕ) :
    List.Chain' (· ≤ ·) ((List.range n).map f) := by
  cases n with
  | zero => simp
  | succ m =>
      rw [List.chain'_map, List.chain'_range_succ]
      exact fun i _ => hf i

/-- Adjacent gable sheet lengths are ordered whenever the rise is nonnegative. -/
lemma gable_sheet_length_at_mono (height sheet_width pitch : ℚ)
    (hr : 0 ≤ rise_per_sheet_feet sheet_width pitch) (i : ℕ) :
    gable_sheet_length_at height sheet_width pitch i ≤
      gable_sheet_length_at height sheet_width pitch (i + 1) := by
  unfold gable_sheet_length_at
  have harg : (start_length height sheet_width pitch +
      (i : ℚ) * rise_per_sheet_feet sheet_width pitch) * 12 ≤
      (start_length height sheet_width pitch +
        ((i + 1 : ℕ) : ℚ) * rise_per_sheet_feet sheet_width pitch) * 12 := by
    push_cast
    nlinarith
  have hmono := pyRound_mono harg
  have h12 : (0:ℚ) < 12 := by norm_num
  exact (div_le_div_iff_of_pos_right h12).mpr (by exact_mod_cast hmono)

/-- Concrete evaluation of the ascending run at the spec's concrete scenario
(width 30 ft, wall height 10 ft, pitch 4, sheet width 36 in). -/
lemma asc_lengths_standard : asc_lengths 30 10 4 36 = [11, 12, 13, 14, 15] := by
  unfold asc_lengths sheets_per_side sheet_width_ft
  norm_num
  rw [show ((5:ℤ).toNat) = 5 from rfl]
  simp only [List.range_succ, List.range_zero, List.map_append, List.map_cons, List.map_nil,
    List.nil_append, List.cons_append, List.append_nil]
  unfold gable_sheet_length_at start_length rise_per_sheet_feet rise_per_sheet_inches
  norm_num
  rw [pyRound_of_intCast (show (132:ℚ) = ((132:ℤ):ℚ) by norm_num),
      pyRound_of_intCast (show (144:ℚ) = ((144:ℤ):ℚ) by norm_num),
      pyRound_of_intCast (show (156:ℚ) = ((156:ℤ):ℚ) by norm_num),
      pyRound_of_intCast (show (168:ℚ) = ((168:ℤ):ℚ) by norm_num),
      pyRound_of_intCast (show (180:ℚ) = ((180:ℤ):ℚ) by norm_num)]
  norm_num

/-- The gable head equals the gable last entry (the run is mirrored). -/
lemma gable_head?_eq_getLast? (width height pitch sheet_width : ℚ) :
    (gable_sheet_lengths width height pitch sheet_width).head? =
      (gable_sheet_lengths width height pitch sheet_width).getLast? := by
  rw [gable_sheet_lengths_eq_append]
  rcases hasc : asc_lengths width height pitch sheet_width with _ | ⟨a, t⟩
  · simp
  · rw [List.getLast?_append_of_ne_nil _ (by simp)]
    rw [show (a :: t).reverse.getLast? = some a from by
      rw [List.reverse_cons]; exact List.getLast?_concat _]
    simp

/-! ### Claim C1 -/

/-- **C1, counterexample.**  At the spec's concrete scenario (width 30,
wall height 10, pitch 4, sheet width 36 in) the staggered gable list produced
by the code is `[11,…,15, 15,…,11]`: the descending loop
`range(sheets_per_side - 1, -1, -1)` starts again at the peak index, so the
peak value 15 appears twice per triangle, refuting "the peak length appears
exactly once per triangle". -/
theorem gable_peak_value_duplicated :
    gable_sheet_lengths 30 10 4 36 = [11, 12, 13, 14, 15, 15, 14, 13, 12, 11] ∧
    (gable_sheet_lengths 30 10 4 36).count 15 = 2 := by
  have hl : gable_sheet_lengths 30 10 4 36 = [11, 12, 13, 14, 15, 15, 14, 13, 12, 11] := by
    rw [gable_sheet_lengths_eq_append, asc_lengths_standard]
    rfl
  refine ⟨hl, ?_⟩
  rw [hl]
  norm_num [List.count_cons]

/-- **C1, amended.**  The descending half of the gable staggered list is the
exact mirror (reverse) of the ascending half, the peak value included — so any
value closing the ascending run appears at least twice in the list — and the
Gable Triangles section's sheet count is `2 * len(sequence)`. -/
theorem gable_descending_full_mirror (length width height pitch overhang sheet_width : ℚ) :
    gable_sheet_lengths width height pitch sheet_width =
      asc_lengths width height pitch sheet_width ++
        (asc_lengths width height pitch sheet_width).reverse ∧
    (base_results length width height pitch overhang sheet_width).lookup "Gable Triangles" =
      some ⟨(gable_sheet_lengths width height pitch sheet_width).length * 2,
        .staggered (gable_sheet_lengths width height pitch sheet_width)⟩ ∧
    (∀ a, (asc_lengths width height pitch sheet_width).getLast? = some a →
      2 ≤ (gable_sheet_lengths width height pitch sheet_width).count a) := by
  refine ⟨gable_sheet_lengths_eq_append width height pitch sheet_width, rfl, ?_⟩
  intro a ha
  rw [gable_sheet_lengths_eq_append, List.count_append, List.count_reverse]
  have hmem : a ∈ asc_lengths width height pitch sheet_width := List.mem_of_mem_getLast? ha
  have hcnt : 0 < (asc_lengths width height pitch sheet_width).count a :=
    List.count_pos_iff.mpr hmem
  omega

/-- **C1, amended, witness.**  At the concrete scenario the ascending run ends
with the peak value 15 and the full list contains it (at least) twice. -/
theorem gable_descending_full_mirror_witness :
    (asc_lengths 30 10 4 36).getLast? = some 15 ∧
    2 ≤ (gable_sheet_lengths 30 10 4 36).count 15 := by
  have hlast : (asc_lengths 30 10 4 36).getLast? = some 15 := by
    rw [asc_lengths_standard]; rfl
  exact ⟨hlast, (gable_descending_full_mirror 40 30 10 4 16 36).2.2 15 hlast⟩

/-! ### Claim C2 -/

/-- **C2, counterexample.**  The valid spec width 2 ft, wall height 1/24 ft,
pitch 6/5 (in (0,12]), sheet width 10 in (all dimensions positive,
`sheetsPerSide = 2 ≥ 1`) yields the ascending half `[1/6, 1/6]`: Python's
`round` (ties to even) sends both `1.5` and `2.5` to `2`, so the sequence is
not strictly increasing then strictly decreasing, nor constant at length 1. -/
theorem gable_not_strictly_increasing :
    (0:ℚ) < 1/24 ∧ (0:ℚ) < 6/5 ∧ (6/5:ℚ) ≤ 12 ∧
    sheets_per_side 2 10 = 2 ∧
    asc_lengths 2 (1/24) (6/5) 10 = [1/6, 1/6] ∧
    ¬ List.Chain' (· < ·) (asc_lengths 2 (1/24) (6/5) 10) := by
  have hasc : asc_lengths 2 (1/24) (6/5) 10 = [1/6, 1/6] := by
    unfold asc_lengths sheets_per_side sheet_width_ft
    norm_num
    rw [show ⌈(6/5:ℚ)⌉ = 2 from by rw [Int.ceil_eq_iff]; constructor <;> norm_num]
    rw [show ((2:ℤ).toNat) = 2 from rfl]
    simp only [List.range_succ, List.range_zero, List.map_append, List.map_cons, List.map_nil,
      List.nil_append, List.cons_append, List.append_nil]
    unfold gable_sheet_length_at start_length rise_per_sheet_feet rise_per_sheet_inches
    norm_num
    rw [pyRound_of_add_half (show (3/2:ℚ) = ((1:ℤ):ℚ) + 1/2 by norm_num),
        pyRound_of_add_half (show (5/2:ℚ) = ((2:ℤ):ℚ) + 1/2 by norm_num)]
    norm_num
  refine ⟨by norm_num, by norm_num, by norm_num, ?_, hasc, ?_⟩
  · unfold sheets_per_side sheet_width_ft
    rw [show (2:ℚ) / (2 * (10/12)) = 6/5 by norm_num]
    rw [Int.ceil_eq_iff]
    constructor <;> norm_num
  · rw [hasc]
    simp [List.chain'_cons]

/-- **C2, amended.**  For every valid spec the gable sequence is
non-decreasing then non-increasing (weak monotonicity; strictness can fail
when a rounding tie collapses adjacent lengths): the ascending half has
length `sheetsPerSide ≥ 1`, the descending half the same, total
`2*sheetsPerSide`, and the first element equals the last. -/
theorem gable_sequence_monotone_palindrome (width height pitch sheet_width : ℚ)
    (hw : 0 < width) (hsw : 0 < sheet_width) (hp : 0 < pitch) :
    1 ≤ (sheets_per_side width sheet_width).toNat ∧
    (asc_lengths width height pitch sheet_width).length =
      (sheets_per_side width sheet_width).toNat ∧
    (desc_lengths width height pitch sheet_width).length =
      (sheets_per_side width sheet_width).toNat ∧
    (gable_sheet_lengths width height pitch sheet_width).length =
      2 * (sheets_per_side width sheet_width).toNat ∧
    List.Chain' (· ≤ ·) (asc_lengths width height pitch sheet_width) ∧
    List.Chain' (fun a b => b ≤ a) (desc_lengths width height pitch sheet_width) ∧
    (gable_sheet_lengths width height pitch sheet_width).head? =
      (gable_sheet_lengths width height pitch sheet_width).getLast? := by
  have hrise : 0 ≤ rise_per_sheet_feet sheet_width pitch := by
    unfold rise_per_sheet_feet
    have h0 : (0:ℤ) ≤ rise_per_sheet_inches sheet_width pitch :=
      Int.ceil_nonneg (by positivity)
    have : (0:ℚ) ≤ (rise_per_sheet_inches sheet_width pitch : ℚ) := by exact_mod_cast h0
    linarith
  have hchain : List.Chain' (· ≤ ·) (asc_lengths width height pitch sheet_width) := by
    unfold asc_lengths
    exact chain'_le_map_range (gable_sheet_length_at_mono height sheet_width pitch hrise) _
  have hpos : 0 < sheets_per_side width sheet_width := by
    unfold sheets_per_side
    apply Int.ceil_pos.mpr
    apply div_pos hw
    unfold sheet_width_ft
    linarith
  refine ⟨by omega, asc_lengths_length _ _ _ _, ?_, gable_sheet_lengths_length _ _ _ _,
    hchain, ?_, gable_head?_eq_getLast? _ _ _ _⟩
  · rw [desc_lengths_eq_reverse, List.length_reverse]
    exact asc_lengths_length _ _ _ _
  · rw [desc_lengths_eq_reverse, List.chain'_reverse]
    exact hchain

/-- **C2, amended, witness.**  Instantiation at the concrete scenario
(width 30, wall height 10, pitch 4, sheet width 36 in). -/
theorem gable_sequence_monotone_palindrome_witness :
    1 ≤ (sheets_per_side 30 36).toNat ∧
    (asc_lengths 30 10 4 36).length = (sheets_per_side 30 36).toNat ∧
    (desc_lengths 30 10 4 36).length = (sheets_per_side 30 36).toNat ∧
    (gable_sheet_lengths 30 10 4 36).length = 2 * (sheets_per_side 30 36).toNat ∧
    List.Chain' (· ≤ ·) (asc_lengths 30 10 4 36) ∧
    List.Chain' (fun a b => b ≤ a) (desc_lengths 30 10 4 36) ∧
    (gable_sheet_lengths 30 10 4 36).head? = (gable_sheet_lengths 30 10 4 36).getLast? :=
  gable_sequence_monotone_palindrome 30 10 4 36 (by norm_num) (by norm_num) (by norm_num)

/-! ### Claim C3 -/

/-- **C3.**  The Roof sheet length is the slope length rounded up to the
nearest half-foot: for every input the reported roof sheet length `r` and the
slope length `L` satisfy `L ≤ r` and `r - L < 1/2`; at the concrete scenario
(width 30, overhang 16 in, pitch 4 — with length 40, height 10, sheet width
36 in for the reported section) the roof sheet length is 17.5 ft. -/
theorem roof_sheet_length_half_foot_round_up :
    (∀ width overhang pitch : ℚ,
        roof_slope_length width overhang pitch ≤ roof_sheet_length width overhang pitch ∧
        roof_sheet_length width overhang pitch - roof_slope_length width overhang pitch < 1/2) ∧
    roof_sheet_length 30 16 4 = 35/2 ∧
    (base_results 40 30 10 4 16 36).lookup "Roof" =
      some ⟨total_roof_sheets 40 16 36, .single (35/2 : ℝ)⟩ := by
  have hconc : roof_sheet_length 30 16 4 = 35/2 := by
    have hrun : roof_run 30 16 = 49/3 := by
      unfold roof_run half_gable_width gable_width overhang_ft
      norm_num
    have hpeak : peak_height 30 16 4 = 49/9 := by
      unfold peak_height half_gable_width gable_width overhang_ft
      norm_num
    have hslope : roof_slope_length 30 16 4 = Real.sqrt (24010/81) := by
      unfold roof_slope_length
      rw [hrun, hpeak]
      norm_num
    have h17 : (17:ℝ) < Real.sqrt (24010/81) := by
      rw [Real.lt_sqrt (by norm_num)]
      norm_num
    have h175 : Real.sqrt (24010/81 : ℝ) ≤ 35/2 := by
      calc Real.sqrt (24010/81 : ℝ) ≤ Real.sqrt ((35/2)^2) := Real.sqrt_le_sqrt (by norm_num)
        _ = 35/2 := Real.sqrt_sq (by norm_num)
    have hceil : (⌈Real.sqrt (24010/81 : ℝ) * 2⌉ : ℤ) = 35 := by
      rw [Int.ceil_eq_iff]
      constructor
      · push_cast
        linarith
      · push_cast
        linarith
    unfold roof_sheet_length
    rw [hslope, hceil]
    norm_num
  refine ⟨?_, hconc, ?_⟩
  · intro w o p
    have hle := Int.le_ceil (roof_slope_length w o p * 2)
    have hlt := Int.ceil_lt_add_one (roof_slope_length w o p * 2)
    unfold roof_sheet_length
    constructor <;> linarith
  · show (base_results 40 30 10 4 16 36).lookup "Roof" =
      some ⟨total_roof_sheets 40 16 36, .single (35/2 : ℝ)⟩
    rw [show (base_results 40 30 10 4 16 36).lookup "Roof" =
        some ⟨total_roof_sheets 40 16 36, .single (roof_sheet_length 30 16 4)⟩ from rfl]
    rw [hconc]

/-! ### Claim C4 -/

/-- **C4.**  For positive building length and sheet width, the Eave Walls
sheet count is `ceil(length / sheetWidthFt) * 2` — always even and at least
2 — and the Eave Walls panel length is the wall height. -/
theorem eave_walls_count_even_ge_two (length width height pitch overhang sheet_width : ℚ)
    (hl : 0 < length) (hsw : 0 < sheet_width) :
    eave_wall_sheets length sheet_width = ⌈length / (sheet_width / 12)⌉ * 2 ∧
    Even (eave_wall_sheets length sheet_width) ∧
    2 ≤ eave_wall_sheets length sheet_width ∧
    (base_results length width height pitch overhang sheet_width).lookup "Eave Walls" =
      some ⟨eave_wall_sheets length sheet_width, .single (height : ℝ)⟩ := by
  have hceil : 0 < ⌈length / sheet_width_ft sheet_width⌉ := by
    apply Int.ceil_pos.mpr
    apply div_pos hl
    unfold sheet_width_ft
    linarith
  refine ⟨rfl, ⟨⌈length / sheet_width_ft sheet_width⌉, by unfold eave_wall_sheets; ring⟩, ?_, rfl⟩
  unfold eave_wall_sheets
  omega

/-- **C4, witness.**  Concrete scenario: `ceil(40/3)*2 = 28` sheets of
length 10 ft. -/
theorem eave_walls_count_even_ge_two_witness :
    eave_wall_sheets 40 36 = ⌈(40:ℚ) / (36 / 12)⌉ * 2 ∧
    Even (eave_wall_sheets 40 36) ∧
    2 ≤ eave_wall_sheets 40 36 ∧
    (base_results 40 30 10 4 16 36).lookup "Eave Walls" =
      some ⟨eave_wall_sheets 40 36, .single ((10:ℚ) : ℝ)⟩ :=
  eave_walls_count_even_ge_two 40 30 10 4 16 36 (by norm_num) (by norm_num)

/-! ### Claim C5 -/

/-- **C5, counterexample.**  The engine performs no input validation: with
pitch 13 (outside (0,12]) it returns normally instead of failing with
InvalidPitch, and with length −5 (non-positive) it returns normally instead
of failing with InvalidDimension. -/
theorem engine_accepts_invalid_inputs :
    (∃ r, calculate_sheathing 40 30 10 13 16 36 false none none none none = Except.ok r) ∧
    (∃ r, calculate_sheathing (-5) 30 10 4 16 36 false none none none none = Except.ok r) := by
  constructor <;>
    · unfold calculate_sheathing
      rw [if_neg (by norm_num : (36:ℚ) ≠ 0)]
      exact ⟨_, rfl⟩

/-- **C5, amended.**  The engine validates nothing: it returns normally for
every input — including non-positive dimensions and out-of-range pitch — as
long as the sheet width is nonzero, and its only failure mode is the
division-by-zero error raised when `sheet_width = 0` (range validation lives
in the input collector, not the engine). -/
theorem engine_no_validation (l w h p o sw : ℚ) (incl : Bool) (sw? sd? sp? sh? : Option ℚ) :
    (sw ≠ 0 → ∃ r, calculate_sheathing l w h p o sw incl sw? sd? sp? sh? = Except.ok r) ∧
    (sw = 0 → calculate_sheathing l w h p o sw incl sw? sd? sp? sh? =
      Except.error "ZeroDivisionError") := by
  constructor
  · intro hsw
    unfold calculate_sheathing
    rw [if_neg hsw]
    exact ⟨_, rfl⟩
  · intro hsw
    unfold calculate_sheathing
    rw [if_pos hsw]

/-- **C5, amended, witness.**  With nonzero sheet width and an out-of-range
pitch the engine still returns normally. -/
theorem engine_no_validation_witness :
    (36:ℚ) ≠ 0 ∧
    (∃ r, calculate_sheathing 40 30 10 13 16 36 true (some 12) (some 20) (some 3) (some 8) =
      Except.ok r) :=
  ⟨by norm_num,
   (engine_no_validation 40 30 10 13 16 36 true (some 12) (some 20) (some 3) (some 8)).1
     (by norm_num)⟩

/-! ### Claim C6 -/

/-- **C6, counterexample.**  A selected shed with `shed_width = 0` (all four
shed arguments present) is *not* treated as `None`: line 84 only tests
`is not None`, so the result still contains the three shed sections, and the
key list differs from the no-attachment result. -/
theorem shed_zero_width_sections_present :
    (calculate_sheathing 40 30 10 4 16 36 true (some 0) (some 20) (some 3) (some 8)).toOption.map
        (List.map Prod.fst) =
      some ["Eave Walls", "Gable Triangles", "Roof",
            "Shed Front/Back Walls", "Shed Side Wall", "Shed Roof"] ∧
    (["Eave Walls", "Gable Triangles", "Roof",
      "Shed Front/Back Walls", "Shed Side Wall", "Shed Roof"] : List String) ≠
      ["Eave Walls", "Gable Triangles", "Roof"] := by
  constructor
  · unfold calculate_sheathing
    rw [if_neg (by norm_num : (36:ℚ) ≠ 0)]
    rfl
  · simp

/-- **C6, amended.**  Only *missing* (`None`) shed dimensions suppress the
shed sections — then the result is identical to the no-attachment result;
when all four shed arguments are present (even zero or negative), the shed
sections are appended, and in neither case is an error raised. -/
theorem shed_missing_dims_skipped (l w h p o sw : ℚ) (sw? sd? sp? sh? : Option ℚ) :
    (sw? = none ∨ sd? = none ∨ sp? = none ∨ sh? = none →
      calculate_sheathing l w h p o sw true sw? sd? sp? sh? =
        calculate_sheathing l w h p o sw false none none none none) ∧
    (∀ a b c d : ℚ, sw? = some a → sd? = some b → sp? = some c → sh? = some d → sw ≠ 0 →
      ∃ r, calculate_sheathing l w h p o sw true sw? sd? sp? sh? = Except.ok r ∧
        r.map Prod.fst = ["Eave Walls", "Gable Triangles", "Roof",
          "Shed Front/Back Walls", "Shed Side Wall", "Shed Roof"]) := by
  constructor
  · intro hnone
    rcases sw? with _ | a <;> rcases sd? with _ | b <;> rcases sp? with _ | c <;>
      rcases sh? with _ | d <;> first | rfl | simp_all
  · intro a b c d ha hb hc hd hsw
    subst ha; subst hb; subst hc; subst hd
    unfold calculate_sheathing
    rw [if_neg hsw]
    exact ⟨_, rfl, rfl⟩

/-- **C6, amended, witness.**  A `None` shed width is skipped; an all-present
shed is included. -/
theorem shed_missing_dims_skipped_witness :
    (calculate_sheathing 40 30 10 4 16 36 true none (some 20) (some 3) (some 8) =
      calculate_sheathing 40 30 10 4 16 36 false none none none none) ∧
    (∃ r, calculate_sheathing 40 30 10 4 16 36 true (some 12) (some 20) (some 3) (some 8) =
        Except.ok r ∧
      r.map Prod.fst = ["Eave Walls", "Gable Triangles", "Roof",
        "Shed Front/Back Walls", "Shed Side Wall", "Shed Roof"]) :=
  ⟨(shed_missing_dims_skipped 40 30 10 4 16 36 none (some 20) (some 3) (some 8)).1 (Or.inl rfl),
   (shed_missing_dims_skipped 40 30 10 4 16 36 (some 12) (some 20) (some 3) (some 8)).2
     12 20 3 8 rfl rfl rfl rfl (by norm_num)⟩

/-! ### Claim C7 -/

/-- **C7.**  With no attachment the result holds exactly the base sections —
Eave Walls, Gable Triangles, Roof (no separate Gable Walls section is
modeled) — in that insertion order, with no shed or porch keys. -/
theorem no_attachment_base_keys_only (l w h p o sw : ℚ) (hsw : sw ≠ 0) :
    ∃ r, calculate_sheathing l w h p o sw false none none none none = Except.ok r ∧
      r.map Prod.fst = ["Eave Walls", "Gable Triangles", "Roof"] := by
  unfold calculate_sheathing
  rw [if_neg hsw]
  exact ⟨_, rfl, rfl⟩

/-- **C7, witness.**  Concrete scenario. -/
theorem no_attachment_base_keys_only_witness :
    (36:ℚ) ≠ 0 ∧
    (∃ r, calculate_sheathing 40 30 10 4 16 36 false none none none none = Except.ok r ∧
      r.map Prod.fst = ["Eave Walls", "Gable Triangles", "Roof"]) :=
  ⟨by norm_num, no_attachment_base_keys_only 40 30 10 4 16 36 (by norm_num)⟩

/-! ### Claim C8 -/

/-- **C8, counterexample.**  With sheet width 36 in (3 ft) exceeding the
building width 2 ft, `sheets_per_side` is 1 — not 0 — the staggered list is
`[9, 9]` (wall height 8, pitch 4), and the Gable Triangles section reports 4
panels, not zero. -/
theorem wide_sheet_reports_four_panels :
    sheet_width_ft 36 = 3 ∧ (2:ℚ) < sheet_width_ft 36 ∧
    sheets_per_side 2 36 = 1 ∧
    gable_sheet_lengths 2 8 4 36 = [9, 9] ∧
    (gable_sheet_lengths 2 8 4 36).length * 2 = 4 := by
  have hasc : asc_lengths 2 8 4 36 = [9] := by
    unfold asc_lengths sheets_per_side sheet_width_ft
    norm_num
    rw [show ⌈(1/3:ℚ)⌉ = 1 from by rw [Int.ceil_eq_iff]; constructor <;> norm_num]
    rw [show ((1:ℤ).toNat) = 1 from rfl]
    simp only [List.range_succ, List.range_zero, List.map_append, List.map_cons, List.map_nil,
      List.nil_append, List.cons_append, List.append_nil]
    unfold gable_sheet_length_at start_length rise_per_sheet_feet rise_per_sheet_inches
    norm_num
    rw [pyRound_of_intCast (show (108:ℚ) = ((108:ℤ):ℚ) by norm_num)]
    norm_num
  have hg : gable_sheet_lengths 2 8 4 36 = [9, 9] := by
    rw [gable_sheet_lengths_eq_append, hasc]
    rfl
  refine ⟨by unfold sheet_width_ft; norm_num, by unfold sheet_width_ft; norm_num, ?_, hg, ?_⟩
  · unfold sheets_per_side sheet_width_ft
    rw [show (2:ℚ) / (2 * (36/12)) = 1/3 by norm_num]
    rw [Int.ceil_eq_iff]
    constructor <;> norm_num
  · rw [hg]
    rfl

/-- **C8, amended.**  For positive width, `sheets_per_side` is never 0: when
the sheet width (in feet) exceeds the building width it equals 1, the gable
sequence has two entries, the Gable Triangles section reports
`2 * len = 4` panels, and no error is raised. -/
theorem sheets_per_side_one_when_sheet_exceeds_width (l w h p o sw : ℚ)
    (hw : 0 < w) (hws : w < sheet_width_ft sw) :
    sheets_per_side w sw = 1 ∧
    (gable_sheet_lengths w h p sw).length = 2 ∧
    (∃ r, calculate_sheathing l w h p o sw false none none none none = Except.ok r ∧
      r.lookup "Gable Triangles" =
        some ⟨(gable_sheet_lengths w h p sw).length * 2,
          .staggered (gable_sheet_lengths w h p sw)⟩) := by
  have hsw12 : 0 < sheet_width_ft sw := lt_trans hw hws
  have hswpos : 0 < sw := by
    unfold sheet_width_ft at hsw12
    linarith
  have h1 : sheets_per_side w sw = 1 := by
    unfold sheets_per_side
    rw [Int.ceil_eq_iff]
    have hdenom : (0:ℚ) < 2 * sheet_width_ft sw := by linarith
    constructor
    · have := div_pos hw hdenom
      push_cast
      linarith
    · have h2 : w < 2 * sheet_width_ft sw := by linarith
      have := (div_lt_one hdenom).mpr h2
      push_cast
      linarith
  refine ⟨h1, ?_, ?_⟩
  · rw [gable_sheet_lengths_length, h1]
    rfl
  · unfold calculate_sheathing
    rw [if_neg (ne_of_gt hswpos)]
    exact ⟨_, rfl, rfl⟩

/-- **C8, amended, witness.**  Width 2 ft, sheet width 36 in. -/
theorem sheets_per_side_one_when_sheet_exceeds_width_witness :
    (0:ℚ) < 2 ∧ (2:ℚ) < sheet_width_ft 36 ∧
    (sheets_per_side 2 36 = 1 ∧
     (gable_sheet_lengths 2 8 4 36).length = 2 ∧
     (∃ r, calculate_sheathing 10 2 8 4 0 36 false none none none none = Except.ok r ∧
       r.lookup "Gable Triangles" =
         some ⟨(gable_sheet_lengths 2 8 4 36).length * 2,
           .staggered (gable_sheet_lengths 2 8 4 36)⟩)) :=
  ⟨by norm_num, by unfold sheet_width_ft; norm_num,
   sheets_per_side_one_when_sheet_exceeds_width 10 2 8 4 0 36 (by norm_num)
     (by unfold sheet_width_ft; norm_num)⟩

/-! ### Claim C9 -/

/-- **C9.**  For an active shed with positive dimensions, the Shed Roof
section counts `ceil(shedDepth / sheetWidthFt)` sheets — one slope only,
not doubled — and its sheet length is
`sqrt(shedWidth² + (shedWidth·shedPitch/12)²)` rounded up to the nearest
half-foot. -/
theorem shed_roof_one_slope_half_foot (l w h p o sw w' d' p' h' : ℚ)
    (_hw' : 0 < w') (_hd' : 0 < d') (_hp' : 0 < p') (_hh' : 0 < h') (hsw : sw ≠ 0) :
    ∃ r, calculate_sheathing l w h p o sw true (some w') (some d') (some p') (some h') =
        Except.ok r ∧
      r.lookup "Shed Roof" = some ⟨⌈d' / (sw / 12)⌉,
        .single ((⌈Real.sqrt ((w' : ℝ) ^ 2 + ((w' * (p' / 12) : ℚ) : ℝ) ^ 2) * 2⌉ : ℝ) / 2)⟩ := by
  unfold calculate_sheathing
  rw [if_neg hsw]
  refine ⟨_, rfl, ?_⟩
  rw [show (base_results l w h p o sw ++ shed_results sw w' d' p' h').lookup "Shed Roof" =
      some ⟨shed_roof_sheets d' sw, .single (shed_roof_sheet_length w' p')⟩ from rfl]
  rw [show shed_roof_sheets d' sw = ⌈d' / (sw / 12)⌉ from by
    unfold shed_roof_sheets sheet_width_ft
    exact mul_one _]
  rfl

/-- **C9, witness.**  Shed 12 ft wide, 20 ft deep, pitch 3, wall height 8 ft,
sheet width 36 in. -/
theorem shed_roof_one_slope_half_foot_witness :
    (0:ℚ) < 12 ∧ (0:ℚ) < 20 ∧ (0:ℚ) < 3 ∧ (0:ℚ) < 8 ∧ (36:ℚ) ≠ 0 ∧
    (∃ r, calculate_sheathing 40 30 10 4 16 36 true (some 12) (some 20) (some 3) (some 8) =
        Except.ok r ∧
      r.lookup "Shed Roof" = some ⟨⌈(20:ℚ) / (36 / 12)⌉,
        .single ((⌈Real.sqrt (((12:ℚ) : ℝ) ^ 2 + (((12:ℚ) * ((3:ℚ) / 12) : ℚ) : ℝ) ^ 2) * 2⌉ : ℝ) / 2)⟩) :=
  ⟨by norm_num, by norm_num, by norm_num, by norm_num, by norm_num,
   shed_roof_one_slope_half_foot 40 30 10 4 16 36 12 20 3 8
     (by norm_num) (by norm_num) (by norm_num) (by norm_num) (by norm_num)⟩

/-! ### Claim C10 -/

/-- **C10.**  The porch-capable engine variant (modelled from the spec; see
`calculate_sheathing_porch`) accepts the Porch attachment: for an active
porch with positive dimensions the result includes the porch section after
the base sections. -/
theorem porch_sections_after_base :
    ∃ r, calculate_sheathing_porch 40 30 10 4 16 36 (some (12, 8, 4)) = Except.ok r ∧
      r.map Prod.fst = ["Eave Walls", "Gable Triangles", "Roof", "Porch Roof"] := by
  unfold calculate_sheathing_porch
  rw [if_neg (by norm_num : (36:ℚ) ≠ 0)]
  refine ⟨_, rfl, ?_⟩
  show (if (0:ℚ) < 12 ∧ (0:ℚ) < 8 then
      base_results 40 30 10 4 16 36 ++ porch_results 36 12 8 4
    else base_results 40 30 10 4 16 36).map Prod.fst = _
  rw [if_pos (by norm_num : (0:ℚ) < 12 ∧ (0:ℚ) < 8)]
  rfl

end MetalCalc
